import Mathlib

/-!
Verification of the balatrobot RPC client, health checker, and dispatcher
specification. The Python modules `src/balatrobot/cli/client.py`,
`src/balatrobot/health.py` and `src/balatrobot/cli/api.py` are embedded
shallowly below; the Lua dispatcher described by the specification is not
shipped in the repository sources (only its integration tests are), so it is
modelled from the specification text where needed.
-/

/-- A JSON value. Objects keep their key/value pairs as an association list,
mirroring Python dicts produced by `json.loads` / `response.json()`.
Numbers are modelled as integers (all numbers appearing in the verified
code paths are integral). -/
inductive Json where
  | null : Json
  | bool : Bool → Json
  | num : Int → Json
  | str : String → Json
  | arr : List Json → Json
  | obj : List (String × Json) → Json

/-- Association lookup on a JSON object; `none` on any non-object. -/
def Json.lookup? (j : Json) (k : String) : Option Json :=
  match j with
  | .obj kvs => List.lookup k kvs
  | _ => none

/-- Returns `true` exactly on JSON objects. -/
def Json.isObj : Json → Bool
  | .obj _ => true
  | _ => false

/-- Substring test on character lists: does `hay` contain `needle`
as a contiguous run? -/
def containsRun (needle : List Char) : List Char → Bool
  | [] => needle.isEmpty
  | c :: rest => needle.isPrefixOf (c :: rest) || containsRun needle rest

/-- Substring test on strings. -/
def strContains (hay needle : String) : Bool :=
  containsRun needle.toList hay.toList

/-! ## RPC client (`src/balatrobot/cli/client.py`) -/

/-- Class `APIError` (client.py lines 9-16): the structured error the client raises
when the server answers with an error envelope. Python stores whatever JSON
values were found, so the fields are JSON values. -/
structure APIError where
  name : Json
  message : Json
  code : Json

/-- The exceptions `BalatroClient.call` can raise: `httpx.ConnectError` when
the TCP connection cannot be established, `APIError` on an error envelope,
and the Python built-in `KeyError`/`TypeError` raised by dict subscripting
(`data["result"]`, `error["data"]["name"]`, ...) on malformed responses.
`attributeError` models `.get` called on a non-dict (health.py). -/
inductive CallError where
  | connectError : CallError
  | apiError : APIError → CallError
  | keyError : String → CallError
  | typeError : CallError
  | attributeError : CallError

/-- What the client writes to the network. `client.py` line 47 performs
`client.post(self.url, json=payload)`: an HTTP POST whose body is the JSON
payload. A raw newline-terminated TCP line is the other transport appearing
in this system (used by the Lua server, not by this client). -/
inductive WireMessage where
  | tcpLine : String → WireMessage
  | httpPost : String → Json → WireMessage

/-- Stated from the claim wording: is the transmitted message one raw
newline-terminated TCP line? -/
def WireMessage.isTcpLine : WireMessage → Bool
  | .tcpLine _ => true
  | .httpPost _ _ => false

/-- Network outcome of one `call`: either the connection fails
(`httpx.ConnectError`) or a decoded 200-response body is received. -/
inductive NetOutcome where
  | connectFail : NetOutcome
  | reply : Json → NetOutcome

/-- Dataclass `BalatroClient` (client.py lines 19-26) with its defaults.
`timeout` (30.0 seconds in the source) is modelled in whole seconds. -/
structure BalatroClient where
  host : String := "127.0.0.1"
  port : Nat := 12346
  timeout : Nat := 30
  _request_id : Nat := 0

/-- The `url` property (client.py lines 28-30). -/
def BalatroClient.url (c : BalatroClient) : String :=
  "http://" ++ c.host ++ ":" ++ toString c.port

/-- Python `k in data` on a JSON value: key membership for dicts, element
equality for lists, substring test for strings; `TypeError` otherwise. -/
def pyContains (j : Json) (k : String) : Except CallError Bool :=
  match j with
  | .obj kvs => .ok (kvs.any (fun kv => kv.1 == k))
  | .arr xs => .ok (xs.any (fun x => match x with | .str s => s == k | _ => false))
  | .str s => .ok (strContains s k)
  | _ => .error .typeError

/-- Python `data[k]` on a JSON value: dict lookup raising `KeyError` when the
key is absent, `TypeError` when the value is not a dict. -/
def pyGetItem (j : Json) (k : String) : Except CallError Json :=
  match j with
  | .obj kvs =>
    match List.lookup k kvs with
    | some v => .ok v
    | none => .error (.keyError k)
  | _ => .error .typeError

/-- The request payload built by `call` (client.py lines 40-45):
`params or \x7b\x7d` replaces a `None` argument by the empty dict (an empty
dict argument is likewise replaced by an equal empty dict). -/
def mkPayload (method : String) (params : Option Json) (rid : Nat) : Json :=
  Json.obj [("jsonrpc", Json.str "2.0"), ("method", Json.str method),
            ("params", params.getD (Json.obj [])), ("id", Json.num (Int.ofNat rid))]

/-- Response processing of `call` (client.py lines 51-58): on an `error`
member, raise `APIError` built from `error["data"]["name"]`,
`error["message"]`, `error["code"]` (evaluated in that order); otherwise
return `data["result"]`. -/
def processResponse (data : Json) : Except CallError Json :=
  match pyContains data "error" with
  | .error e => .error e
  | .ok false => pyGetItem data "result"
  | .ok true =>
    match pyGetItem data "error" with
    | .error e => .error e
    | .ok err =>
      match pyGetItem err "data" with
      | .error e => .error e
      | .ok d =>
        match pyGetItem d "name" with
        | .error e => .error e
        | .ok nm =>
          match pyGetItem err "message" with
          | .error e => .error e
          | .ok msg =>
            match pyGetItem err "code" with
            | .error e => .error e
            | .ok cd => .error (.apiError ⟨nm, msg, cd⟩)

/-- Method `BalatroClient.call` (client.py lines 32-58): increment `_request_id`,
build the payload carrying the new id, POST it to `self.url`, then process
the outcome. Returns the updated client, the transmitted message, and the
call result (`Except` models the raised exceptions). -/
def BalatroClient.call (c : BalatroClient) (method : String) (params : Option Json)
    (net : NetOutcome) : BalatroClient × WireMessage × Except CallError Json :=
  let rid := c._request_id + 1
  let c' : BalatroClient := { c with _request_id := rid }
  let wire := WireMessage.httpPost c.url (mkPayload method params rid)
  match net with
  | .connectFail => (c', wire, .error .connectError)
  | .reply data => (c', wire, processResponse data)

/-- One planned invocation of `call`: its arguments and the network outcome
it will meet. -/
structure CallSpec where
  method : String
  params : Option Json
  net : NetOutcome

/-- Run a sequence of `call` invocations on one client, collecting the
transmitted messages. -/
def runCalls (c : BalatroClient) : List CallSpec → List WireMessage
  | [] => []
  | s :: rest =>
    let r := c.call s.method s.params s.net
    r.2.1 :: runCalls r.1 rest

/-- The `id` fields of the transmitted request payloads. -/
def sentIds (msgs : List WireMessage) : List Json :=
  msgs.filterMap (fun w => match w with
    | .httpPost _ body => body.lookup? "id"
    | .tcpLine _ => none)

/-! ## Health check (`src/balatrobot/health.py`) -/

/-- Network outcome of one `check_health` probe: the three caught exception
classes (health.py lines 41-46) or a decoded response body. -/
inductive HealthNet where
  | connectError : HealthNet
  | timeoutExc : HealthNet
  | otherExc : HealthNet
  | reply : Json → HealthNet

/-- Python `d.get(k)`: `None`-defaulting dict lookup, `AttributeError` when
the receiver is not a dict. -/
def pyDictGet (j : Json) (k : String) : Except CallError (Option Json) :=
  match j with
  | .obj kvs => .ok (List.lookup k kvs)
  | _ => .error .attributeError

/-- Function `check_health` (health.py lines 6-48): returns `true` when
`"result" in data and data["result"].get("status") == "ok"`; every caught
exception path returns `false`. -/
def check_health (net : HealthNet) : Bool :=
  match net with
  | .connectError => false
  | .timeoutExc => false
  | .otherExc => false
  | .reply data =>
    match pyContains data "result" with
    | .error _ => false
    | .ok false => false
    | .ok true =>
      match pyGetItem data "result" with
      | .error _ => false
      | .ok r =>
        match pyDictGet r "status" with
        | .error _ => false
        | .ok (some (.str v)) => v == "ok"
        | .ok _ => false

/-- Stated from the claim wording: the probe succeeded exactly when the
response decodes to JSON containing a `result` object whose `status` member
equals `ok`. -/
def healthySpec (net : HealthNet) : Bool :=
  match net with
  | .reply (.obj kvs) =>
    match List.lookup "result" kvs with
    | some (.obj rkvs) =>
      match List.lookup "status" rkvs with
      | some (.str v) => v == "ok"
      | _ => false
    | _ => false
  | _ => false

/-! ## CLI `api` command (`src/balatrobot/cli/api.py`) -/

/-- Default of the `--host` option of the `api` command (api.py line 41). -/
def apiDefaultHost : String := "127.0.0.1"

/-- Default of the `--port` option of the `api` command (api.py line 42). -/
def apiDefaultPort : Nat := 12346

/-- The client the `api` command constructs (api.py line 53):
`BalatroClient(host=host, port=port)`. -/
def apiClient (host : String) (port : Nat) : BalatroClient :=
  { host := host, port := port }

/-! ## Dispatcher (modelled from the specification)

The four-tier dispatcher runs inside the Lua mod, whose sources are not part
of this repository checkout (only its Python integration tests under
`tests/lua/` are). The definitions below are therefore modelled from the
specification text (sections 4.3-4.9 and 6). -/

/-- Modelled from the spec: the closed error taxonomy of section 7; the Lua
dispatcher source is missing from the repository. -/
inductive ErrKind where
  | badRequest : ErrKind
  | invalidState : ErrKind
  | notAllowed : ErrKind
  | internalError : ErrKind

/-- Modelled from the spec: the JSON-RPC code table of section 4.8. -/
def ErrKind.code : ErrKind → Int
  | .badRequest => -32600
  | .invalidState => -32002
  | .notAllowed => -32003
  | .internalError => -32603

/-- Modelled from the spec: the `error.data.name` strings of section 4.8. -/
def ErrKind.tag : ErrKind → String
  | .badRequest => "BAD_REQUEST"
  | .invalidState => "INVALID_STATE"
  | .notAllowed => "NOT_ALLOWED"
  | .internalError => "INTERNAL_ERROR"

/-- Modelled from the spec: item type tags of a schema array descriptor
(section 3, Schema). -/
inductive ItemTag where
  | string : ItemTag
  | integer : ItemTag
  | boolean : ItemTag
  | table : ItemTag

/-- Modelled from the spec: the field type tags of section 3 (`array`
carries an optional item tag). -/
inductive FieldType where
  | string : FieldType
  | integer : FieldType
  | boolean : FieldType
  | array : Option ItemTag → FieldType
  | table : FieldType

/-- Modelled from the spec: one schema field descriptor (required flag and
type tag, section 3). -/
structure FieldDesc where
  required : Bool
  ty : FieldType

/-- Modelled from the spec: a handler returns a success object, a domain
error, or panics with an uncaught exception (sections 4.7 and 6). -/
inductive HandlerResult where
  | ok : Json → HandlerResult
  | err : ErrKind → String → HandlerResult
  | panic : String → HandlerResult

/-- Modelled from the spec: an endpoint record of the registry (section 3);
state tags are opaque strings. -/
structure Endpoint where
  name : String
  schema : List (String × FieldDesc)
  required_states : List String
  handler : Json → HandlerResult
  reads_game_state : Bool := false
  mutates_game_state : Bool := false

/-- Modelled from the spec: registry lookup by method name (section 4.4). -/
def findEndpoint (reg : List Endpoint) (m : String) : Option Endpoint :=
  reg.find? (fun e => e.name == m)

/-- Modelled from the spec: the echoed request id — the request id if
Tier 1 extracted one, else JSON null (section 3, invariant 4). -/
def extractId (req : Json) : Json :=
  match req.lookup? "id" with
  | some i => i
  | none => Json.null

/-- Modelled from the spec: Tier 2 element check against an item tag. -/
def checkItem : ItemTag → Json → Bool
  | .string, .str _ => true
  | .integer, .num n => -(2 ^ 53) ≤ n && n ≤ 2 ^ 53
  | .boolean, .bool _ => true
  | .table, .obj _ => true
  | _, _ => false

/-- Modelled from the spec: Tier 2 value check against a field type
(section 4.5; `boolean` rejects numbers and strings, `table` is an object,
`integer` is a number within the 53-bit range). -/
def checkType : FieldType → Json → Bool
  | .string, .str _ => true
  | .integer, .num n => -(2 ^ 53) ≤ n && n ≤ 2 ^ 53
  | .boolean, .bool _ => true
  | .array _, .arr _ => true
  | .table, .obj _ => true
  | _, _ => false

/-- Modelled from the spec: index of the first array element failing the
item tag (section 4.5). -/
def firstBadItem (t : ItemTag) : List Json → Nat → Option Nat
  | [], _ => none
  | x :: rest, i => if checkItem t x then firstBadItem t rest (i + 1) else some i

/-- Modelled from the spec: the name of a field type, for messages. -/
def FieldType.tag : FieldType → String
  | .string => "string"
  | .integer => "integer"
  | .boolean => "boolean"
  | .array _ => "array"
  | .table => "table"

/-- Modelled from the spec: Tier 2 check of one field (section 4.5); `none`
means the field passes, `some m` carries the violation message. -/
def validateField (params : Json) (nm : String) (d : FieldDesc) : Option String :=
  match params.lookup? nm with
  | none => if d.required then some ("Missing required field " ++ nm) else none
  | some v =>
    match d.ty with
    | .array itag =>
      match v with
      | .arr xs =>
        match itag with
        | none => none
        | some t =>
          match firstBadItem t xs 0 with
          | some i => some ("Field " ++ nm ++ " array item at index " ++ toString i
              ++ " must be of type " ++
              (match t with
               | .string => "string" | .integer => "integer"
               | .boolean => "boolean" | .table => "table"))
          | none => none
      | _ => some ("Field " ++ nm ++ " must be of type array")
    | t => if checkType t v then none else
        some ("Field " ++ nm ++ " must be of type " ++ t.tag)

/-- Modelled from the spec: Tier 2, fail-fast over the schema fields in
order (section 4.5). -/
def tier2Check (schema : List (String × FieldDesc)) (params : Json) : Option String :=
  schema.findSome? (fun fd => validateField params fd.1 fd.2)

/-- Modelled from the spec: Tier 3 state gate (section 4.6): empty
`required_states` passes; otherwise the current state must be allowed. -/
def tier3Check (states : List String) (cur : String) : Option String :=
  if states.isEmpty then none
  else if states.contains cur then none
  else some ("Method requires one of these states: " ++ String.intercalate ", " states)

/-- Modelled from the spec: Tier 1 protocol validation and registry lookup
(section 4.3): `method` present and a string, `params` present and an
object, method registered; on success yields the endpoint and params. -/
def tier1Extract (reg : List Endpoint) (req : Json) : Except String (Endpoint × Json) :=
  match req.lookup? "method" with
  | some (.str m) =>
    match req.lookup? "params" with
    | some (.obj kvs) =>
      match findEndpoint reg m with
      | some e => .ok (e, .obj kvs)
      | none => .error ("Unknown method " ++ m)
    | _ => .error "Field params must be an object"
  | _ => .error "Field method must be a string"

/-- Modelled from the spec: Tier 4 handler execution (section 4.7): a panic
is converted to `INTERNAL_ERROR` with the exception text. -/
def tier4Run (h : Json → HandlerResult) (params : Json) : Except (ErrKind × String) Json :=
  match h params with
  | .ok r => .ok r
  | .err k m => .error (k, m)
  | .panic m => .error (.internalError, m)

/-- Modelled from the spec: the success envelope of section 3. -/
def successEnvelope (r id : Json) : Json :=
  Json.obj [("jsonrpc", Json.str "2.0"), ("result", r), ("id", id)]

/-- Modelled from the spec: the error envelope of section 3 with the code
table of section 4.8. -/
def errorEnvelope (k : ErrKind) (msg : String) (id : Json) : Json :=
  Json.obj [("jsonrpc", Json.str "2.0"),
            ("error", Json.obj [("code", Json.num k.code), ("message", Json.str msg),
                                ("data", Json.obj [("name", Json.str k.tag)])]),
            ("id", id)]

/-- Modelled from the spec: dispatch of one parsed request through the four
tiers in order (section 4.9 state machine). -/
def dispatchParsed (reg : List Endpoint) (cur : String) (req : Json) : Json :=
  let id := extractId req
  match tier1Extract reg req with
  | .error m => errorEnvelope .badRequest m id
  | .ok (e, params) =>
    match tier2Check e.schema params with
    | some m => errorEnvelope .badRequest m id
    | none =>
      match tier3Check e.required_states cur with
      | some m => errorEnvelope .invalidState m id
      | none =>
        match tier4Run e.handler params with
        | .error km => errorEnvelope km.1 km.2 id
        | .ok r => successEnvelope r id

/-- One inbound frame: its byte length including the terminator, and the
JSON value its bytes would parse to (`none` when they are not valid JSON).
Keeping the parse result separate from the length lets the oversize check
be stated independently of parsing. -/
structure Frame where
  len : Nat
  parsed : Option Json

/-- Modelled from the spec: frame admission (sections 4.1 and 4.2): a line
longer than 256 bytes including its terminator is refused as `BAD_REQUEST`
("message too large") before JSON parsing; an unparseable or non-object
root is refused as `BAD_REQUEST`; otherwise the request is dispatched. -/
def receiveFrame (reg : List Endpoint) (cur : String) (f : Frame) : Json :=
  if f.len > 256 then
    errorEnvelope .badRequest "Message too large" Json.null
  else
    match f.parsed with
    | none => errorEnvelope .badRequest "Invalid JSON" Json.null
    | some req =>
      if req.isObj then dispatchParsed reg cur req
      else errorEnvelope .badRequest "Request must be a JSON object" Json.null

/-- Modelled from the spec: the per-connection loop (section 4.9): read a
frame, write exactly one response, repeat; the connection state carries
nothing between requests. -/
def serveConn (reg : List Endpoint) (cur : String) (frames : List Frame) : List Json :=
  frames.map (receiveFrame reg cur)

/-- The `error.data.name` member of a response envelope, when present. -/
def errNameOf (resp : Json) : Option Json :=
  (resp.lookup? "error").bind (fun e => (e.lookup? "data").bind (fun d => d.lookup? "name"))

/-- The `error.message` member of a response envelope, when present. -/
def errMsgOf (resp : Json) : Option Json :=
  (resp.lookup? "error").bind (fun e => e.lookup? "message")

/-! ## Helper lemmas -/

/-- The first component of `call` is the client with the id counter bumped,
for every network outcome. -/
theorem call_fst (c : BalatroClient) (m : String) (p : Option Json) (net : NetOutcome) :
    (c.call m p net).1 = { c with _request_id := c._request_id + 1 } := by
  cases net <;> rfl

/-- The transmitted message of `call`, for every network outcome. -/
theorem call_wire (c : BalatroClient) (m : String) (p : Option Json) (net : NetOutcome) :
    (c.call m p net).2.1 = WireMessage.httpPost c.url (mkPayload m p (c._request_id + 1)) := by
  cases net <;> rfl

/-- The raised/returned value of `call` on a decoded reply. -/
theorem call_reply (c : BalatroClient) (m : String) (p : Option Json) (data : Json) :
    (c.call m p (.reply data)).2.2 = processResponse data := rfl

/-- Key membership via `any` agrees with `List.lookup` success. -/
theorem any_key_eq_lookup_isSome (k : String) (kvs : List (String × Json)) :
    kvs.any (fun kv => kv.1 == k) = (List.lookup k kvs).isSome := by
  induction kvs with
  | nil => rfl
  | cons hd tl ih =>
    obtain ⟨a, b⟩ := hd
    by_cases h : k = a
    · subst h; simp [List.lookup]
    · have h1 : (a == k) = false := by simp [beq_iff_eq]; exact fun he => h he.symm
      have h2 : (k == a) = false := by simp [beq_iff_eq]; exact h
      simp [List.lookup, h1, h2, ih]

/-- A successful subscript implies membership. -/
theorem pyGetItem_ok_contains {j : Json} {k : String} {v : Json}
    (h : pyGetItem j k = .ok v) : pyContains j k = .ok true := by
  cases j with
  | obj kvs =>
    cases hl : List.lookup k kvs with
    | none => simp [pyGetItem, hl] at h
    | some w => simp [pyContains, any_key_eq_lookup_isSome, hl]
  | null => simp [pyGetItem] at h
  | bool b => simp [pyGetItem] at h
  | num n => simp [pyGetItem] at h
  | str s => simp [pyGetItem] at h
  | arr xs => simp [pyGetItem] at h

/-- Membership failure on an object means the lookup misses. -/
theorem pyContains_obj_false {kvs : List (String × Json)} {k : String}
    (h : pyContains (Json.obj kvs) k = .ok false) : List.lookup k kvs = none := by
  simp only [pyContains, Except.ok.injEq] at h
  rw [any_key_eq_lookup_isSome] at h
  exact Option.not_isSome_iff_eq_none.mp (by simp [h])

/-- Unfolding of `runCalls` on a cons cell. -/
theorem runCalls_cons (c : BalatroClient) (s : CallSpec) (rest : List CallSpec) :
    runCalls c (s :: rest) =
      WireMessage.httpPost c.url (mkPayload s.method s.params (c._request_id + 1)) ::
        runCalls { c with _request_id := c._request_id + 1 } rest := by
  show (c.call s.method s.params s.net).2.1 ::
      runCalls (c.call s.method s.params s.net).1 rest = _
  rw [call_wire, call_fst]

/-- Bumping the id counter does not change the target URL. -/
theorem url_update (c : BalatroClient) (n : Nat) :
    ({ c with _request_id := n } : BalatroClient).url = c.url := rfl

/-- The k-th transmitted message of a call sequence: the payload carries
id `initial counter + k + 1`. -/
theorem runCalls_get (c : BalatroClient) (specs : List CallSpec) (k : Nat) :
    (runCalls c specs).get? k = (specs.get? k).map
      (fun s => WireMessage.httpPost c.url
        (mkPayload s.method s.params (c._request_id + k + 1))) := by
  induction specs generalizing c k with
  | nil => simp [runCalls]
  | cons s rest ih =>
    rw [runCalls_cons]
    cases k with
    | zero => simp
    | succ k =>
      simp only [List.get?]
      rw [ih]
      cases hr : rest.get? k with
      | none => simp
      | some a =>
        have hn : c._request_id + 1 + k + 1 = c._request_id + (k + 1) + 1 := by omega
        simp [url_update, hn]

/-- The `id` member of a request payload. -/
theorem mkPayload_id (m : String) (p : Option Json) (rid : Nat) :
    (mkPayload m p rid).lookup? "id" = some (Json.num (Int.ofNat rid)) := rfl

/-- The ids sent by a call sequence are the consecutive integers after the
starting counter. -/
theorem sentIds_runCalls (specs : List CallSpec) : ∀ c : BalatroClient,
    sentIds (runCalls c specs) =
      (List.range' (c._request_id + 1) specs.length).map
        (fun k => Json.num (Int.ofNat k)) := by
  induction specs with
  | nil => intro c; rfl
  | cons s rest ih =>
    intro c
    rw [runCalls_cons]
    simp only [sentIds, List.filterMap_cons, mkPayload_id]
    have := ih { c with _request_id := c._request_id + 1 }
    simp only [sentIds] at this
    rw [this]
    simp [List.range'_succ]

/-! ## Claim theorems -/

/-- Claim C7: a `BalatroClient` constructed without host and port arguments
targets host `127.0.0.1` and port `12346`, and the CLI `api` command uses the
same defaults when no `--host` or `--port` option is given. -/
theorem client_default_config :
    ({} : BalatroClient).host = "127.0.0.1" ∧
    ({} : BalatroClient).port = 12346 ∧
    (apiClient apiDefaultHost apiDefaultPort).host = "127.0.0.1" ∧
    (apiClient apiDefaultHost apiDefaultPort).port = 12346 :=
  ⟨rfl, rfl, rfl, rfl⟩

/-- Claim C6: when the TCP connection cannot be established, `call` raises
the connection-failure exception (`httpx.ConnectError`) and never an
`APIError`. -/
theorem call_connect_failure_distinct (c : BalatroClient) (m : String) (p : Option Json) :
    (c.call m p .connectFail).2.2 = .error .connectError ∧
    ∀ e : APIError, (c.call m p .connectFail).2.2 ≠ .error (.apiError e) := by
  refine ⟨rfl, fun e h => ?_⟩
  rw [show (c.call m p .connectFail).2.2 = .error .connectError from rfl] at h
  simp at h

/-- Witness for C6 at a concrete client and call. -/
theorem call_connect_failure_distinct_spot :
    (({} : BalatroClient).call "health" none .connectFail).2.2 = .error .connectError :=
  (call_connect_failure_distinct {} "health" none).1

/-- Counterexample to claim C3 as stated: the message `call` transmits is
not a raw newline-terminated TCP line (the client performs an HTTP POST,
client.py line 47). -/
theorem call_transport_not_tcp_line :
    WireMessage.isTcpLine
      ((({} : BalatroClient).call "health" (some (Json.obj [])) .connectFail).2.1) = false :=
  rfl

/-- Claim C3 (amended): for every invocation, the client transmits the
request envelope as the JSON body of one HTTP POST to `http://host:port`
(not as a raw newline-terminated TCP line), and one decoded response body is
consumed per call. -/
theorem call_transport_http_post (c : BalatroClient) (m : String) (p : Option Json)
    (net : NetOutcome) :
    (c.call m p net).2.1 = WireMessage.httpPost c.url (mkPayload m p (c._request_id + 1)) ∧
    WireMessage.isTcpLine (c.call m p net).2.1 = false := by
  cases net <;> exact ⟨rfl, rfl⟩

/-- Claim C9: `_request_id` is incremented exactly once per invocation of
`call`, the transmitted envelope already carries the incremented id and does
not depend on the network outcome (so a failing call still consumes an id),
and the ids a client sends over any call sequence are pairwise distinct. -/
theorem call_consumes_id_once (c : BalatroClient) (m : String) (p : Option Json)
    (net net' : NetOutcome) (specs : List CallSpec) :
    (c.call m p net).1._request_id = c._request_id + 1 ∧
    (c.call m p net).2.1 = WireMessage.httpPost c.url (mkPayload m p (c._request_id + 1)) ∧
    (c.call m p net).2.1 = (c.call m p net').2.1 ∧
    (sentIds (runCalls c specs)).Nodup := by
  refine ⟨by rw [call_fst], call_wire c m p net, by rw [call_wire, call_wire], ?_⟩
  rw [sentIds_runCalls]
  refine List.Nodup.map (fun a b hab => by simpa using hab) ?_
  exact List.nodup_range' (c._request_id + 1) specs.length

/-- Claim C2: a freshly constructed client has its id counter
zero-initialized, and for every n ≥ 1 the n-th invocation of `call` sends an
envelope whose `id` is n, whose `jsonrpc` is "2.0", and whose `method` and
`params` are the given arguments. -/
theorem calls_monotone_ids (specs : List CallSpec) (n : Nat) (s : CallSpec) (p : Json)
    (hn : 1 ≤ n) (hs : specs.get? (n - 1) = some s) (hp : s.params = some p) :
    ({} : BalatroClient)._request_id = 0 ∧
    (runCalls {} specs).get? (n - 1) =
      some (WireMessage.httpPost ({} : BalatroClient).url
        (Json.obj [("jsonrpc", Json.str "2.0"), ("method", Json.str s.method),
                   ("params", p), ("id", Json.num (Int.ofNat n))])) := by
  refine ⟨rfl, ?_⟩
  rw [runCalls_get, hs]
  have h0 : ({} : BalatroClient)._request_id = 0 := rfl
  have hn' : ({} : BalatroClient)._request_id + (n - 1) + 1 = n := by omega
  simp [mkPayload, hp, hn']
  omega

/-- Witness for C2: the first call of a fresh client sends id 1 with the
given method and params. -/
theorem calls_monotone_ids_spot :
    ({} : BalatroClient)._request_id = 0 ∧
    (runCalls {} [⟨"health", some (Json.obj []), .connectFail⟩]).get? 0 =
      some (WireMessage.httpPost ({} : BalatroClient).url
        (Json.obj [("jsonrpc", Json.str "2.0"), ("method", Json.str "health"),
                   ("params", Json.obj []), ("id", Json.num 1)])) :=
  calls_monotone_ids [⟨"health", some (Json.obj []), .connectFail⟩] 1
    ⟨"health", some (Json.obj []), .connectFail⟩ (Json.obj [])
    (Nat.le_refl 1) rfl rfl

/-- Claim C1: if the decoded response object contains an `error` member,
`call` raises an `APIError` whose name, message and code equal the
members `error.data.name`, `error.message` and `error.code` of the response; otherwise
it returns the `result` object of the response. -/
theorem call_error_envelope_result (c : BalatroClient) (meth : String) (p : Option Json)
    (data err d nm msg cd v : Json) :
    (pyGetItem data "error" = .ok err → pyGetItem err "data" = .ok d →
     pyGetItem d "name" = .ok nm → pyGetItem err "message" = .ok msg →
     pyGetItem err "code" = .ok cd →
     (c.call meth p (.reply data)).2.2 = .error (.apiError ⟨nm, msg, cd⟩)) ∧
    (pyContains data "error" = .ok false → pyGetItem data "result" = .ok v →
     (c.call meth p (.reply data)).2.2 = .ok v) := by
  constructor
  · intro h1 h2 h3 h4 h5
    have hc := pyGetItem_ok_contains h1
    rw [call_reply]
    simp only [processResponse, hc, h1, h2, h3, h4, h5]
  · intro h1 h2
    rw [call_reply]
    simp only [processResponse, h1, h2]

/-- Witness for C1: an error envelope raises the matching `APIError`; a
result envelope returns its `result` member. -/
theorem call_error_envelope_result_spot :
    (({} : BalatroClient).call "play" none
        (.reply (Json.obj [("jsonrpc", Json.str "2.0"),
          ("error", Json.obj [("code", Json.num (-32600)), ("message", Json.str "boom"),
                              ("data", Json.obj [("name", Json.str "BAD_REQUEST")])]),
          ("id", Json.num 1)]))).2.2 =
      .error (.apiError ⟨Json.str "BAD_REQUEST", Json.str "boom", Json.num (-32600)⟩) ∧
    (({} : BalatroClient).call "health" none
        (.reply (Json.obj [("jsonrpc", Json.str "2.0"),
          ("result", Json.obj [("status", Json.str "ok")]),
          ("id", Json.num 1)]))).2.2 =
      .ok (Json.obj [("status", Json.str "ok")]) := by
  constructor
  · exact (call_error_envelope_result {} "play" none
      (Json.obj [("jsonrpc", Json.str "2.0"),
        ("error", Json.obj [("code", Json.num (-32600)), ("message", Json.str "boom"),
                            ("data", Json.obj [("name", Json.str "BAD_REQUEST")])]),
        ("id", Json.num 1)])
      (Json.obj [("code", Json.num (-32600)), ("message", Json.str "boom"),
                 ("data", Json.obj [("name", Json.str "BAD_REQUEST")])])
      (Json.obj [("name", Json.str "BAD_REQUEST")])
      (Json.str "BAD_REQUEST") (Json.str "boom") (Json.num (-32600)) Json.null).1
      rfl rfl rfl rfl rfl
  · exact (call_error_envelope_result {} "health" none
      (Json.obj [("jsonrpc", Json.str "2.0"),
        ("result", Json.obj [("status", Json.str "ok")]),
        ("id", Json.num 1)])
      Json.null Json.null Json.null Json.null Json.null
      (Json.obj [("status", Json.str "ok")])).2 rfl rfl

/-- Claim C10: a decoded response object with neither an `error` nor a
`result` member makes `call` raise `KeyError` on the `result` lookup, and
the success branch returns only when `result` is present. -/
theorem call_missing_result_raises (c : BalatroClient) (meth : String) (p : Option Json)
    (kvs : List (String × Json)) (data v : Json) :
    (pyContains (Json.obj kvs) "error" = .ok false →
     pyContains (Json.obj kvs) "result" = .ok false →
     (c.call meth p (.reply (Json.obj kvs))).2.2 = .error (.keyError "result")) ∧
    ((c.call meth p (.reply data)).2.2 = .ok v → pyGetItem data "result" = .ok v) := by
  constructor
  · intro h1 h2
    have hl := pyContains_obj_false h2
    rw [call_reply]
    unfold processResponse
    rw [h1]
    simp [pyGetItem, hl]
  · intro h
    have h' : processResponse data = .ok v := h
    unfold processResponse at h'
    cases hc : pyContains data "error" with
    | error e => simp only [hc] at h'; exact Except.noConfusion h'
    | ok b =>
      cases b with
      | false => simpa only [hc] using h'
      | true =>
        simp only [hc] at h'
        cases hg : pyGetItem data "error" with
        | error e => simp only [hg] at h'; exact Except.noConfusion h'
        | ok err =>
          simp only [hg] at h'
          cases hd : pyGetItem err "data" with
          | error e => simp only [hd] at h'; exact Except.noConfusion h'
          | ok d =>
            simp only [hd] at h'
            cases hn : pyGetItem d "name" with
            | error e => simp only [hn] at h'; exact Except.noConfusion h'
            | ok nm =>
              simp only [hn] at h'
              cases hm : pyGetItem err "message" with
              | error e => simp only [hm] at h'; exact Except.noConfusion h'
              | ok msg =>
                simp only [hm] at h'
                cases hcd : pyGetItem err "code" with
                | error e => simp only [hcd] at h'; exact Except.noConfusion h'
                | ok cd => simp only [hcd] at h'; exact Except.noConfusion h'

/-- Witness for C10: a response with only an `id` member raises the
`result` `KeyError`; a response carrying `result` returns it. -/
theorem call_missing_result_raises_spot :
    (({} : BalatroClient).call "health" none
        (.reply (Json.obj [("id", Json.num 1)]))).2.2 = .error (.keyError "result") ∧
    pyGetItem (Json.obj [("result", Json.null)]) "result" = .ok Json.null := by
  constructor
  · exact (call_missing_result_raises {} "health" none [("id", Json.num 1)]
      Json.null Json.null).1 rfl rfl
  · exact (call_missing_result_raises {} "health" none []
      (Json.obj [("result", Json.null)]) Json.null).2 rfl

/-- Claim C8: `check_health` is total over its outcomes — it returns a
boolean for every network outcome, `false` on every connection failure,
timeout or other exception, and `true` exactly when the response decodes to
JSON containing a `result` object whose `status` member equals `ok`. -/
theorem check_health_total (net : HealthNet) :
    check_health net = healthySpec net := by
  cases net with
  | connectError => rfl
  | timeoutExc => rfl
  | otherExc => rfl
  | reply data =>
    cases data with
    | obj kvs =>
      simp only [check_health, healthySpec]
      rw [show pyContains (Json.obj kvs) "result" =
            Except.ok ((List.lookup "result" kvs).isSome) from by
        simp [pyContains, any_key_eq_lookup_isSome]]
      cases hl : List.lookup "result" kvs with
      | none => rfl
      | some r =>
        simp only [Option.isSome_some]
        rw [show pyGetItem (Json.obj kvs) "result" = Except.ok r from by
          simp [pyGetItem, hl]]
        cases r with
        | obj rkvs =>
          simp only [pyDictGet]
          cases List.lookup "status" rkvs with
          | none => rfl
          | some sv => cases sv <;> rfl
        | null => rfl
        | bool b => rfl
        | num n => rfl
        | str s => rfl
        | arr xs => rfl
    | null => rfl
    | bool b => rfl
    | num n => rfl
    | str s =>
      simp only [check_health, healthySpec, pyContains]
      cases strContains s "result" <;> rfl
    | arr xs =>
      simp only [check_health, healthySpec, pyContains]
      cases xs.any (fun x => match x with | .str t => t == "result" | _ => false) <;> rfl

/-- The error kind name of an error envelope. -/
theorem errNameOf_errorEnvelope (k : ErrKind) (msg : String) (id : Json) :
    errNameOf (errorEnvelope k msg id) = some (Json.str k.tag) := rfl

/-- The error message of an error envelope. -/
theorem errMsgOf_errorEnvelope (k : ErrKind) (msg : String) (id : Json) :
    errMsgOf (errorEnvelope k msg id) = some (Json.str msg) := rfl

/-- Claim C4: when a request violates several validation tiers, the error
kind reported is the one of the earliest violated tier: any Tier 1 failure
(unknown method included) reports `BAD_REQUEST` regardless of the game
state, a Tier 2 failure reports `BAD_REQUEST` regardless of Tier 3, and
only a request passing Tiers 1 and 2 can report `INVALID_STATE`. -/
theorem dispatch_tier_ordering (reg : List Endpoint) (cur : String) (req : Json)
    (m : String) (e : Endpoint) (params : Json) (m1 m2 m3 : String) :
    (tier1Extract reg req = .error m1 →
       errNameOf (dispatchParsed reg cur req) = some (Json.str "BAD_REQUEST")) ∧
    (req.lookup? "method" = some (Json.str m) → findEndpoint reg m = none →
       errNameOf (dispatchParsed reg cur req) = some (Json.str "BAD_REQUEST")) ∧
    (tier1Extract reg req = .ok (e, params) → tier2Check e.schema params = some m2 →
       errNameOf (dispatchParsed reg cur req) = some (Json.str "BAD_REQUEST")) ∧
    (tier1Extract reg req = .ok (e, params) → tier2Check e.schema params = none →
       tier3Check e.required_states cur = some m3 →
       errNameOf (dispatchParsed reg cur req) = some (Json.str "INVALID_STATE")) := by
  refine ⟨?_, ?_, ?_, ?_⟩
  · intro h1
    simp only [dispatchParsed, h1]
    exact errNameOf_errorEnvelope .badRequest m1 (extractId req)
  · intro hm hf
    have h1 : ∃ msg, tier1Extract reg req = .error msg := by
      unfold tier1Extract
      rw [hm]
      cases hp : req.lookup? "params" with
      | none => exact ⟨_, rfl⟩
      | some pv =>
        cases pv with
        | obj kvs =>
          refine ⟨"Unknown method " ++ m, ?_⟩
          simp only [hf]
        | null => exact ⟨_, rfl⟩
        | bool b => exact ⟨_, rfl⟩
        | num n => exact ⟨_, rfl⟩
        | str s => exact ⟨_, rfl⟩
        | arr xs => exact ⟨_, rfl⟩
    obtain ⟨msg, h1⟩ := h1
    simp only [dispatchParsed, h1]
    exact errNameOf_errorEnvelope .badRequest msg (extractId req)
  · intro h1 h2
    simp only [dispatchParsed, h1, h2]
    exact errNameOf_errorEnvelope .badRequest m2 (extractId req)
  · intro h1 h2 h3
    simp only [dispatchParsed, h1, h2, h3]
    exact errNameOf_errorEnvelope .invalidState m3 (extractId req)

/-- A concrete endpoint for spot checks: `play` demands the
`SELECTING_HAND` state and an integer array field `cards`. -/
def playEndpoint : Endpoint :=
  { name := "play",
    schema := [("cards", { required := true, ty := .array (some .integer) })],
    required_states := ["SELECTING_HAND"],
    handler := fun _ => .ok (Json.obj []) }

/-- A one-endpoint registry for concrete checks. -/
def sampleRegistry : List Endpoint := [playEndpoint]

/-- Witness for C4 in state `MENU`: an unknown method gets `BAD_REQUEST`
(not `INVALID_STATE`), a known method with missing `cards` gets
`BAD_REQUEST`, and a schema-valid `play` request gets `INVALID_STATE`. -/
theorem dispatch_tier_ordering_spot :
    errNameOf (dispatchParsed sampleRegistry "MENU"
        (Json.obj [("jsonrpc", Json.str "2.0"), ("method", Json.str "nosuch"),
                   ("params", Json.obj []), ("id", Json.num 2)])) =
      some (Json.str "BAD_REQUEST") ∧
    errNameOf (dispatchParsed sampleRegistry "MENU"
        (Json.obj [("jsonrpc", Json.str "2.0"), ("method", Json.str "play"),
                   ("params", Json.obj []), ("id", Json.num 3)])) =
      some (Json.str "BAD_REQUEST") ∧
    errNameOf (dispatchParsed sampleRegistry "MENU"
        (Json.obj [("jsonrpc", Json.str "2.0"), ("method", Json.str "play"),
                   ("params", Json.obj [("cards", Json.arr [Json.num 0])]),
                   ("id", Json.num 4)])) =
      some (Json.str "INVALID_STATE") := by
  refine ⟨?_, ?_, ?_⟩
  · exact (dispatch_tier_ordering sampleRegistry "MENU"
      (Json.obj [("jsonrpc", Json.str "2.0"), ("method", Json.str "nosuch"),
                 ("params", Json.obj []), ("id", Json.num 2)])
      "nosuch" playEndpoint (Json.obj []) "Unknown method nosuch" "" "").1 rfl
  · exact (dispatch_tier_ordering sampleRegistry "MENU"
      (Json.obj [("jsonrpc", Json.str "2.0"), ("method", Json.str "play"),
                 ("params", Json.obj []), ("id", Json.num 3)])
      "play" playEndpoint (Json.obj []) ""
      "Missing required field cards" "").2.2.1 rfl rfl
  · exact (dispatch_tier_ordering sampleRegistry "MENU"
      (Json.obj [("jsonrpc", Json.str "2.0"), ("method", Json.str "play"),
                 ("params", Json.obj [("cards", Json.arr [Json.num 0])]),
                 ("id", Json.num 4)])
      "play" playEndpoint (Json.obj [("cards", Json.arr [Json.num 0])]) "" ""
      "Method requires one of these states: SELECTING_HAND").2.2.2 rfl rfl rfl

/-- Claim C5: an input line longer than 256 bytes (terminator included) is
refused as `BAD_REQUEST` with a message containing "too large", without
looking at the parse of the frame at all, and the connection keeps serving the
following frames. -/
theorem oversize_frame_refused (reg : List Endpoint) (cur : String) (len : Nat)
    (p p' : Option Json) (rest : List Frame) (h : len > 256) :
    receiveFrame reg cur ⟨len, p⟩ =
      errorEnvelope .badRequest "Message too large" Json.null ∧
    errNameOf (receiveFrame reg cur ⟨len, p⟩) = some (Json.str "BAD_REQUEST") ∧
    (∃ msg, errMsgOf (receiveFrame reg cur ⟨len, p⟩) = some (Json.str msg) ∧
       strContains msg "too large" = true) ∧
    receiveFrame reg cur ⟨len, p⟩ = receiveFrame reg cur ⟨len, p'⟩ ∧
    serveConn reg cur (⟨len, p⟩ :: rest) =
      receiveFrame reg cur ⟨len, p⟩ :: serveConn reg cur rest := by
  have hr : ∀ q : Option Json, receiveFrame reg cur ⟨len, q⟩ =
      errorEnvelope .badRequest "Message too large" Json.null := by
    intro q
    unfold receiveFrame
    simp [h]
  refine ⟨hr p, ?_, ?_, ?_, rfl⟩
  · rw [hr p]; exact errNameOf_errorEnvelope .badRequest "Message too large" Json.null
  · refine ⟨"Message too large", ?_, rfl⟩
    rw [hr p]; exact errMsgOf_errorEnvelope .badRequest "Message too large" Json.null
  · rw [hr p, hr p']

/-- Witness for C5: a 300-byte frame is refused with "too large" and a
following `health` frame is still served. -/
theorem oversize_frame_refused_spot :
    receiveFrame sampleRegistry "MENU" ⟨300, none⟩ =
      errorEnvelope .badRequest "Message too large" Json.null ∧
    errNameOf (receiveFrame sampleRegistry "MENU" ⟨300, none⟩) =
      some (Json.str "BAD_REQUEST") ∧
    (∃ msg, errMsgOf (receiveFrame sampleRegistry "MENU" ⟨300, none⟩) =
       some (Json.str msg) ∧ strContains msg "too large" = true) ∧
    receiveFrame sampleRegistry "MENU" ⟨300, none⟩ =
      receiveFrame sampleRegistry "MENU" ⟨300, some (Json.obj [])⟩ ∧
    serveConn sampleRegistry "MENU"
        (⟨300, none⟩ :: [⟨47, some (Json.obj [("jsonrpc", Json.str "2.0"),
          ("method", Json.str "play"),
          ("params", Json.obj [("cards", Json.arr [Json.num 0])]),
          ("id", Json.num 5)])⟩]) =
      receiveFrame sampleRegistry "MENU" ⟨300, none⟩ ::
        serveConn sampleRegistry "MENU" [⟨47, some (Json.obj [("jsonrpc", Json.str "2.0"),
          ("method", Json.str "play"),
          ("params", Json.obj [("cards", Json.arr [Json.num 0])]),
          ("id", Json.num 5)])⟩] :=
  oversize_frame_refused sampleRegistry "MENU" 300 none (some (Json.obj []))
    [⟨47, some (Json.obj [("jsonrpc", Json.str "2.0"),
      ("method", Json.str "play"),
      ("params", Json.obj [("cards", Json.arr [Json.num 0])]),
      ("id", Json.num 5)])⟩] (by omega)
